import Mathlib

/-
Verification of the easyhid HID binding (src/easyhid/easyhid.py).

The native hidapi library is external to the repository, so every native
entry point is modelled as an oracle: each operation takes the native
call's return count (and, for calls that fill a caller-supplied buffer,
the buffer contents after the call) as explicit parameters, and returns
the operation's result together with the post-call object state and the
trace of native calls it issued.
-/

namespace EasyHid

/-- One native `hid_device_info` record, fields in C struct order.
Wide/narrow C string pointers are `Option String` (null pointer ↦ `none`,
as in `_c_to_py_str`). -/
structure DeviceInfo where
  path : Option String
  vendor_id : Nat
  product_id : Nat
  serial_number : Option String
  release_number : Nat
  manufacturer_string : Option String
  product_string : Option String
  usage_page : Nat
  usage : Nat
  interface_number : Int
deriving DecidableEq

/-- The Python `HIDDevice` object: the identity fields copied out of a
`hid_device_info` record in `HIDDevice.__init__`, plus the `_is_open`
flag.  The opaque native handle `_device` carries no observable state
and is omitted. -/
structure HIDDevice where
  path : Option String
  vendor_id : Nat
  product_id : Nat
  release_number : Nat
  manufacturer_string : Option String
  product_string : Option String
  serial_number : Option String
  usage_page : Nat
  usage : Nat
  interface_number : Int
  is_open : Bool
deriving DecidableEq

/-- `HIDDevice.__init__(cdata)`: copy each field of the native record;
the new object starts closed (`self._is_open = False`). -/
def HIDDevice.ofInfo (cdata : DeviceInfo) : HIDDevice :=
  ⟨cdata.path, cdata.vendor_id, cdata.product_id, cdata.release_number,
   cdata.manufacturer_string, cdata.product_string, cdata.serial_number,
   cdata.usage_page, cdata.usage, cdata.interface_number, false⟩

/-- The distinct `raise` sites of the device-handle I/O methods.
The Python code raises a single `HIDException` class with different
messages; constructors here name the raise sites using the spec's
error taxonomy.  `ValueError` is Python's `bytes(...)` range fault,
`OverflowError` the cffi out-of-range `unsigned char` assignment. -/
inductive HIDErr where
  | NotOpenError
  | WriteError (code : Int)
  | ReadError (code : Int)
  | FeatureReportError
  | ValueError
  | OverflowError
deriving DecidableEq

/-- A native call issued by a device-handle method, with the arguments
the Python wrapper passes (data buffer contents at call time, and the
explicit length argument). -/
inductive NativeCall where
  | hid_write (data : List Nat) (length : Nat)
  | hid_read (length : Nat)
  | hid_read_timeout (length : Nat) (milliseconds : Int)
  | hid_send_feature_report (data : List Nat) (length : Nat)
  | hid_get_feature_report (data : List Nat) (length : Nat)
  | hid_set_nonblocking (nonblock : Bool)
deriving DecidableEq

/-- `HIDDevice.write(data, report_id)`.  Guards: the open check, then
`bytes([report_id]) + bytes(data)` (which demands every byte in 0..255);
then one `hid_write` with `report_id` prepended; negative native count
raises, otherwise the count is returned.  `nativeRet` is the oracle for
the native call's return value. -/
def HIDDevice.write (self : HIDDevice) (data : List Nat) (report_id : Nat)
    (nativeRet : Int) : Except HIDErr Int × HIDDevice × List NativeCall :=
  if self.is_open = false then (.error .NotOpenError, self, [])
  else if 256 ≤ report_id ∨ ¬ data.all (fun b => b < 256) then
    (.error .ValueError, self, [])
  else
    let write_data := report_id :: data
    if nativeRet < 0 then
      (.error (.WriteError nativeRet), self, [.hid_write write_data write_data.length])
    else
      (.ok nativeRet, self, [.hid_write write_data write_data.length])

/-- `HIDDevice.read(size, timeout)`.  A zero-filled buffer of `size`
bytes is passed to `hid_read` (no timeout) or `hid_read_timeout`;
`nativeRet` is the native count and `nativeBuf` the buffer contents
after the call (`bytearray(cdata)`).  Negative count raises, zero count
returns `[]`, and a positive count returns the WHOLE buffer. -/
def HIDDevice.read (self : HIDDevice) (size : Nat) (timeout : Option Int)
    (nativeRet : Int) (nativeBuf : List Nat) :
    Except HIDErr (List Nat) × HIDDevice × List NativeCall :=
  if self.is_open = false then (.error .NotOpenError, self, [])
  else
    let call := match timeout with
      | none => NativeCall.hid_read size
      | some t => NativeCall.hid_read_timeout size t
    if nativeRet < 0 then (.error (.ReadError nativeRet), self, [call])
    else if nativeRet = 0 then (.ok [], self, [call])
    else (.ok nativeBuf, self, [call])

/-- `HIDDevice.send_feature_report(data, report_id)`.  Same prefixing as
`write`, routed through `hid_send_feature_report`; the failure test is
`bytes_read == -1` (exactly `-1`, not every negative count). -/
def HIDDevice.send_feature_report (self : HIDDevice) (data : List Nat)
    (report_id : Nat) (nativeRet : Int) :
    Except HIDErr Int × HIDDevice × List NativeCall :=
  if self.is_open = false then (.error .NotOpenError, self, [])
  else if 256 ≤ report_id ∨ ¬ data.all (fun b => b < 256) then
    (.error .ValueError, self, [])
  else
    let report := report_id :: data
    if nativeRet = -1 then
      (.error .FeatureReportError, self, [.hid_send_feature_report report report.length])
    else
      (.ok nativeRet, self, [.hid_send_feature_report report report.length])

/-- `HIDDevice.get_feature_report(size, report_id)`.  NOTE: unlike every
other I/O method, the Python source has no `self._is_open` check here.
A zero-filled buffer of `size+1` bytes gets `report_id` written at index
0 and is passed to `hid_get_feature_report` with length `size+1`;
failure test is `bytes_read == -1`; on success the slice
`cdata[1:size+1]` is returned.  `nativeBuf` is the buffer contents after
the native call. -/
def HIDDevice.get_feature_report (self : HIDDevice) (size : Nat)
    (report_id : Nat) (nativeRet : Int) (nativeBuf : List Nat) :
    Except HIDErr (List Nat) × HIDDevice × List NativeCall :=
  if 256 ≤ report_id then (.error .OverflowError, self, [])
  else
    let buf := report_id :: List.replicate size 0
    if nativeRet = -1 then
      (.error .FeatureReportError, self, [.hid_get_feature_report buf (size + 1)])
    else
      (.ok ((nativeBuf.drop 1).take size), self, [.hid_get_feature_report buf (size + 1)])

/-- `HIDDevice.set_nonblocking(enable_nonblocking)`: open check, then
one `hid_set_nonblocking` call whose return value is ignored.  (The
Python `type(...) != bool` check cannot fail here since the argument is
already a `Bool`.) -/
def HIDDevice.set_nonblocking (self : HIDDevice) (enable_nonblocking : Bool) :
    Except HIDErr Unit × HIDDevice × List NativeCall :=
  if self.is_open = false then (.error .NotOpenError, self, [])
  else (.ok (), self, [.hid_set_nonblocking enable_nonblocking])

/-- The `vid`/`pid` check of `Enumeration.find`:
`if vid not in [0, None] and dev.vendor_id != vid: continue`.
Returns `true` when the device is kept by this check. -/
def vidPass (arg : Option Nat) (devField : Nat) : Bool :=
  match arg with
  | none => true
  | some v => if v = 0 then true else devField == v

/-- The string checks of `Enumeration.find`:
`if serial and dev.serial_number != serial: continue`.  A Python falsy
filter value (`None` or the empty string) disables the check. -/
def truthyStrPass (arg : Option String) (devField : Option String) : Bool :=
  match arg with
  | none => true
  | some s => if s = "" then true else devField == some s

/-- The numeric non-ID checks of `Enumeration.find`:
`if release_number != None and dev.release_number != release_number`.
Only `None` disables the check; `0` is a real filter value. -/
def nonePassNat (arg : Option Nat) (devField : Nat) : Bool :=
  match arg with
  | none => true
  | some v => devField == v

/-- Like `nonePassNat` for the signed `interface_number` field. -/
def nonePassInt (arg : Option Int) (devField : Int) : Bool :=
  match arg with
  | none => true
  | some v => devField == v

/-- The body of `Enumeration.find`'s loop: a device is appended to the
result exactly when no check `continue`s past it, i.e. when all ten
checks pass. -/
def find_keep (dev : HIDDevice) (vid pid : Option Nat) (serial : Option String)
    (interface : Option Int) (path : Option String) (release_number : Option Nat)
    (manufacturer product : Option String) (usage usage_page : Option Nat) : Bool :=
  vidPass vid dev.vendor_id && vidPass pid dev.product_id &&
  truthyStrPass serial dev.serial_number &&
  truthyStrPass path dev.path &&
  truthyStrPass manufacturer dev.manufacturer_string &&
  truthyStrPass product dev.product_string &&
  nonePassNat release_number dev.release_number &&
  nonePassInt interface dev.interface_number &&
  nonePassNat usage dev.usage &&
  nonePassNat usage_page dev.usage_page

/-- `Enumeration.find(...)`: iterate `device_list` in order, keeping the
devices that pass every supplied filter.  Argument order follows the
Python signature. -/
def Enumeration.find (device_list : List HIDDevice) (vid pid : Option Nat)
    (serial : Option String) (interface : Option Int) (path : Option String)
    (release_number : Option Nat) (manufacturer product : Option String)
    (usage usage_page : Option Nat) : List HIDDevice :=
  device_list.filter (fun dev =>
    find_keep dev vid pid serial interface path release_number
      manufacturer product usage usage_page)

/-- An observable event of `_hid_enumerate`: the initial native
`hid_enumerate` call, each visit of a linked-list node (one `HIDDevice`
construction), and the final `hid_free_enumeration` on the head. -/
inductive EnumEvent where
  | hid_enumerate (vendor_id product_id : Nat)
  | visit (info : DeviceInfo)
  | hid_free_enumeration
deriving DecidableEq

/-- The `while cur != ffi.NULL` loop of `_hid_enumerate`: the native
singly linked list, head to null-terminated tail, is the `List` of its
node records; each iteration appends `HIDDevice(cur)` and steps to
`cur.next`. -/
def enumerate_loop : List DeviceInfo → List HIDDevice × List EnumEvent
  | [] => ([], [])
  | info :: rest =>
    let r := enumerate_loop rest
    (HIDDevice.ofInfo info :: r.1, EnumEvent.visit info :: r.2)

/-- `_hid_enumerate(vendor_id, product_id)`: calls native
`hid_enumerate`, traverses the returned list copying every node, then
calls `hid_free_enumeration(start)` once, after the loop.  `nodes` is
the oracle for the linked list the native call returns. -/
def hid_enumerate_py (vendor_id product_id : Nat) (nodes : List DeviceInfo) :
    List HIDDevice × List EnumEvent :=
  let r := enumerate_loop nodes
  (r.1, EnumEvent.hid_enumerate vendor_id product_id :: r.2 ++ [EnumEvent.hid_free_enumeration])

/-- `HIDDevice.is_connected()`.  Open state: a zero-length
`hid_read_timeout(dev, NULL, 0, 0)` probe, `False` exactly on native
return `-1`.  Closed state: re-enumerate by this handle's vid/pid and
`find` by its path; `nativeRet` is the probe's oracle and `nodes` the
enumeration oracle (the branch not taken ignores its oracle). -/
def HIDDevice.is_connected (self : HIDDevice) (nativeRet : Int)
    (nodes : List DeviceInfo) : Bool :=
  if self.is_open then
    if nativeRet = -1 then false else true
  else
    let en := (hid_enumerate_py self.vendor_id self.product_id nodes).1
    let found := Enumeration.find en none none none none self.path none none none none none
    if found.length = 0 then false else true

/-- A concrete closed device handle used in concrete instances. -/
def devClosed : HIDDevice :=
  ⟨some "usb:1", 1, 2, 3, some "maker", some "widget", some "abc", 4, 5, 0, false⟩

/-- The same handle in the Open state. -/
def devOpen : HIDDevice :=
  ⟨some "usb:1", 1, 2, 3, some "maker", some "widget", some "abc", 4, 5, 0, true⟩

/-- The amended per-device match condition for `find`, written from the
amended claim: the vid/pid filters are disabled by `None` or `0`; the
four string filters are disabled by `None` or the empty string and
otherwise compare by exact equality; the four numeric non-ID filters
are disabled only by `None` (an explicit `0` is a real filter value). -/
def find_spec_matches (dev : HIDDevice) (vid pid : Option Nat) (serial : Option String)
    (interface : Option Int) (path : Option String) (release_number : Option Nat)
    (manufacturer product : Option String) (usage usage_page : Option Nat) : Prop :=
  (vid = none ∨ vid = some 0 ∨ vid = some dev.vendor_id) ∧
  (pid = none ∨ pid = some 0 ∨ pid = some dev.product_id) ∧
  (serial = none ∨ serial = some "" ∨ serial = dev.serial_number) ∧
  (path = none ∨ path = some "" ∨ path = dev.path) ∧
  (manufacturer = none ∨ manufacturer = some "" ∨ manufacturer = dev.manufacturer_string) ∧
  (product = none ∨ product = some "" ∨ product = dev.product_string) ∧
  (release_number = none ∨ release_number = some dev.release_number) ∧
  (interface = none ∨ interface = some dev.interface_number) ∧
  (usage = none ∨ usage = some dev.usage) ∧
  (usage_page = none ∨ usage_page = some dev.usage_page)

instance (dev : HIDDevice) (vid pid : Option Nat) (serial : Option String)
    (interface : Option Int) (path : Option String) (release_number : Option Nat)
    (manufacturer product : Option String) (usage usage_page : Option Nat) :
    Decidable (find_spec_matches dev vid pid serial interface path release_number
      manufacturer product usage usage_page) := by
  unfold find_spec_matches
  infer_instance

theorem vidPass_iff (arg : Option Nat) (x : Nat) :
    vidPass arg x = true ↔ (arg = none ∨ arg = some 0 ∨ arg = some x) := by
  cases arg with
  | none => simp [vidPass]
  | some v =>
    by_cases hv : v = 0
    · subst hv; simp [vidPass]
    · simp [vidPass, hv]
      exact eq_comm

theorem truthyStrPass_iff (arg : Option String) (devField : Option String) :
    truthyStrPass arg devField = true ↔
      (arg = none ∨ arg = some "" ∨ arg = devField) := by
  cases arg with
  | none => simp [truthyStrPass]
  | some s =>
    by_cases hs : s = ""
    · subst hs; simp [truthyStrPass]
    · simp [truthyStrPass, hs]
      exact eq_comm

theorem nonePassNat_iff (arg : Option Nat) (x : Nat) :
    nonePassNat arg x = true ↔ (arg = none ∨ arg = some x) := by
  cases arg with
  | none => simp [nonePassNat]
  | some v =>
    simp [nonePassNat]
    exact eq_comm

theorem nonePassInt_iff (arg : Option Int) (x : Int) :
    nonePassInt arg x = true ↔ (arg = none ∨ arg = some x) := by
  cases arg with
  | none => simp [nonePassInt]
  | some v =>
    simp [nonePassInt]
    exact eq_comm

theorem find_keep_eq_spec (dev : HIDDevice) (vid pid : Option Nat) (serial : Option String)
    (interface : Option Int) (path : Option String) (release_number : Option Nat)
    (manufacturer product : Option String) (usage usage_page : Option Nat) :
    find_keep dev vid pid serial interface path release_number manufacturer product
      usage usage_page =
    decide (find_spec_matches dev vid pid serial interface path release_number
      manufacturer product usage usage_page) := by
  rw [Bool.eq_iff_iff]
  simp only [find_keep, Bool.and_eq_true, decide_eq_true_eq]
  rw [vidPass_iff, vidPass_iff, truthyStrPass_iff, truthyStrPass_iff, truthyStrPass_iff,
    truthyStrPass_iff, nonePassNat_iff, nonePassInt_iff, nonePassNat_iff, nonePassNat_iff]
  unfold find_spec_matches
  simp only [and_assoc]

/-- C3 counterexample: the claim says any supplied value, including an
empty string, is matched by exact equality.  But `find` with
`serial=""` keeps a device whose serial number is `"abc"`, because the
Python truthiness test `if serial and ...` treats the empty string as
an absent filter. -/
theorem C3_find_counterexample :
    Enumeration.find [devClosed] none none (some "") none none none none none
      none none = [devClosed] ∧
    devClosed.serial_number ≠ some "" := by
  constructor
  · rfl
  · simp [devClosed]

/-- C3 amended: `find` returns the order-preserving subsequence of
devices satisfying `find_spec_matches`: the vid/pid filters are
disabled by `None` or `0`, the string filters (serial, path,
manufacturer, product) are disabled by `None` or the EMPTY STRING and
otherwise compare by exact equality, and the numeric non-ID filters
(release_number, interface, usage, usage_page) are disabled only by
`None`, so an explicit `0` there is a real filter value. -/
theorem C3_find_amended (l : List HIDDevice) (vid pid : Option Nat)
    (serial : Option String) (interface : Option Int) (path : Option String)
    (release_number : Option Nat) (manufacturer product : Option String)
    (usage usage_page : Option Nat) :
    Enumeration.find l vid pid serial interface path release_number manufacturer
      product usage usage_page =
      l.filter (fun dev => decide (find_spec_matches dev vid pid serial interface
        path release_number manufacturer product usage usage_page)) ∧
    (Enumeration.find l vid pid serial interface path release_number manufacturer
      product usage usage_page).Sublist l := by
  constructor
  · exact List.filter_congr (fun dev _ => find_keep_eq_spec dev vid pid serial
      interface path release_number manufacturer product usage usage_page)
  · exact List.filter_sublist l

/-- C8: `find` treats `0` like the absent filter `None` for the
vendor-id and product-id fields: for every device list and every choice
of the remaining arguments, `vid=0` and `vid=None` give the same
result, and likewise `pid=0` and `pid=None`. -/
theorem C8_vid_pid_zero_absent (l : List HIDDevice) (vid pid : Option Nat)
    (serial : Option String) (interface : Option Int) (path : Option String)
    (release_number : Option Nat) (manufacturer product : Option String)
    (usage usage_page : Option Nat) :
    Enumeration.find l (some 0) pid serial interface path release_number
      manufacturer product usage usage_page =
      Enumeration.find l none pid serial interface path release_number
        manufacturer product usage usage_page ∧
    Enumeration.find l vid (some 0) serial interface path release_number
      manufacturer product usage usage_page =
      Enumeration.find l vid none serial interface path release_number
        manufacturer product usage usage_page := by
  constructor
  · exact List.filter_congr (fun dev _ => by
      simp [find_keep, vidPass])
  · exact List.filter_congr (fun dev _ => by
      simp [find_keep, vidPass])

theorem enumerate_loop_eq (nodes : List DeviceInfo) :
    enumerate_loop nodes =
      (nodes.map HIDDevice.ofInfo, nodes.map EnumEvent.visit) := by
  induction nodes with
  | nil => rfl
  | cons a t ih => simp [enumerate_loop, ih]

/-- C7: `_hid_enumerate` returns one descriptor per linked-list node in
native list order (so the result length equals the node count), and its
native-event trace is the `hid_enumerate` call, the node visits in
order, then a single `hid_free_enumeration` — so the free call happens
exactly once, after the traversal completes. -/
theorem C7_enumerate_spec (vendor_id product_id : Nat) (nodes : List DeviceInfo) :
    (hid_enumerate_py vendor_id product_id nodes).1 = nodes.map HIDDevice.ofInfo ∧
    (hid_enumerate_py vendor_id product_id nodes).1.length = nodes.length ∧
    (hid_enumerate_py vendor_id product_id nodes).2 =
      (EnumEvent.hid_enumerate vendor_id product_id :: nodes.map EnumEvent.visit) ++
        [EnumEvent.hid_free_enumeration] ∧
    EnumEvent.hid_free_enumeration ∉
      (EnumEvent.hid_enumerate vendor_id product_id :: nodes.map EnumEvent.visit) ∧
    (hid_enumerate_py vendor_id product_id nodes).2.count
      EnumEvent.hid_free_enumeration = 1 := by
  have h1 : (hid_enumerate_py vendor_id product_id nodes).1 =
      nodes.map HIDDevice.ofInfo := by
    simp [hid_enumerate_py, enumerate_loop_eq]
  have h3 : (hid_enumerate_py vendor_id product_id nodes).2 =
      (EnumEvent.hid_enumerate vendor_id product_id :: nodes.map EnumEvent.visit) ++
        [EnumEvent.hid_free_enumeration] := by
    simp [hid_enumerate_py, enumerate_loop_eq]
  have h4 : EnumEvent.hid_free_enumeration ∉
      (EnumEvent.hid_enumerate vendor_id product_id :: nodes.map EnumEvent.visit) := by
    simp [List.mem_map]
  refine ⟨h1, by rw [h1]; simp, h3, h4, ?_⟩
  rw [h3, List.count_append, List.count_eq_zero.mpr h4]
  rfl

/-- C6: on an open handle, `write(data, report_id)` issues exactly one
native `hid_write` whose buffer is `report_id` followed by `data` and
whose length argument is `len(data)+1`; a negative native count raises
`WriteError`, and otherwise the native count is returned. -/
theorem C6_write_spec (self : HIDDevice) (data : List Nat) (report_id : Nat)
    (nativeRet : Int) (hopen : self.is_open = true) (hrid : report_id < 256)
    (hdata : data.all (fun b => b < 256) = true) :
    (self.write data report_id nativeRet).2.2 =
      [NativeCall.hid_write (report_id :: data) (data.length + 1)] ∧
    (nativeRet < 0 →
      (self.write data report_id nativeRet).1 = .error (.WriteError nativeRet)) ∧
    (0 ≤ nativeRet → (self.write data report_id nativeRet).1 = .ok nativeRet) := by
  have hd2 : ¬ ∃ x ∈ data, 256 ≤ x := by
    push_neg
    intro x hx
    simpa using List.all_eq_true.mp hdata x hx
  by_cases hr : nativeRet < 0
  · refine ⟨?_, fun _ => ?_, fun h0 => absurd hr (by omega)⟩ <;>
      simp [HIDDevice.write, hopen, Nat.not_le.mpr hrid, hd2, hr]
  · refine ⟨?_, fun h0 => absurd h0 hr, fun _ => ?_⟩ <;>
      simp [HIDDevice.write, hopen, Nat.not_le.mpr hrid, hd2, hr]

/-- C6 witness: `write([0,1,2,3])` with `report_id=0` sends exactly the
five bytes `[0,0,1,2,3]` with length argument 5 and returns the native
count 5. -/
theorem C6_write_witness :
    (devOpen.write [0, 1, 2, 3] 0 5).2.2 = [NativeCall.hid_write [0, 0, 1, 2, 3] 5] ∧
    (devOpen.write [0, 1, 2, 3] 0 5).1 = .ok 5 := by
  have h := C6_write_spec devOpen [0, 1, 2, 3] 0 5 rfl (by decide) (by decide)
  exact ⟨h.1, h.2.2 (by decide)⟩

/-- C5: on an open handle, `get_feature_report(size, report_id)` passes
the native call a buffer of exactly `size+1` bytes whose first byte is
`report_id` and whose remaining bytes are zero, with length argument
`size+1`; on success (native count not `-1`) it returns exactly the
`size` bytes that follow the leading report-id byte of the filled
buffer. -/
theorem C5_get_feature_report_spec (self : HIDDevice) (size report_id : Nat)
    (nativeRet : Int) (nativeBuf : List Nat) (hopen : self.is_open = true)
    (hrid : report_id < 256) (hlen : nativeBuf.length = size + 1) :
    (self.get_feature_report size report_id nativeRet nativeBuf).2.2 =
      [NativeCall.hid_get_feature_report (report_id :: List.replicate size 0)
        (size + 1)] ∧
    (report_id :: List.replicate size 0).length = size + 1 ∧
    (nativeRet ≠ -1 →
      (self.get_feature_report size report_id nativeRet nativeBuf).1 =
        .ok (nativeBuf.drop 1) ∧
      (nativeBuf.drop 1).length = size) := by
  have hdrop : (nativeBuf.drop 1).length = size := by
    rw [List.length_drop, hlen]
    omega
  by_cases hr : nativeRet = -1
  · refine ⟨?_, by simp, fun hne => absurd hr hne⟩
    simp [HIDDevice.get_feature_report, Nat.not_le.mpr hrid, hr]
  · refine ⟨?_, by simp, fun _ => ⟨?_, hdrop⟩⟩ <;>
      simp [HIDDevice.get_feature_report, Nat.not_le.mpr hrid, hr] <;> omega

/-- C5 witness: `get_feature_report(size=4, report_id=7)` sends the
5-byte buffer `[7,0,0,0,0]` and, when the native layer fills bytes 1..4
with `[9,9,9,9]`, returns `[9,9,9,9]` with the report id stripped. -/
theorem C5_get_feature_report_witness :
    devOpen.is_open = true ∧
    (devOpen.get_feature_report 4 7 5 [7, 9, 9, 9, 9]).2.2 =
      [NativeCall.hid_get_feature_report [7, 0, 0, 0, 0] 5] ∧
    (devOpen.get_feature_report 4 7 5 [7, 9, 9, 9, 9]).1 = .ok [9, 9, 9, 9] := by
  have h := C5_get_feature_report_spec devOpen 4 7 5 [7, 9, 9, 9, 9] rfl
    (by decide) (by decide)
  exact ⟨rfl, h.1, (h.2.2 (by decide)).1⟩

/-- C9: on an open handle, `is_connected()` probes with a zero-length
timed read and returns `False` exactly when the native probe returns
`-1`; every other native return value, including other negative codes,
yields `True`. -/
theorem C9_is_connected_spec (self : HIDDevice) (nativeRet : Int)
    (nodes : List DeviceInfo) (hopen : self.is_open = true) :
    (self.is_connected nativeRet nodes = false ↔ nativeRet = -1) ∧
    (nativeRet ≠ -1 → self.is_connected nativeRet nodes = true) := by
  unfold HIDDevice.is_connected
  rw [hopen]
  by_cases h : nativeRet = -1 <;> simp [h]

/-- C9 witness: on the concrete open handle, the native probe returning
`-2` yields `True` and the probe returning `-1` yields `False`. -/
theorem C9_is_connected_witness :
    devOpen.is_open = true ∧
    devOpen.is_connected (-2) [] = true ∧
    (devOpen.is_connected (-1) [] = false ↔ (-1 : Int) = -1) := by
  refine ⟨rfl, ?_, ?_⟩
  · exact (C9_is_connected_spec devOpen (-2) [] rfl).2 (by decide)
  · exact (C9_is_connected_spec devOpen (-1) [] rfl).1

theorem write_state_eq (self : HIDDevice) (data : List Nat) (report_id : Nat)
    (nativeRet : Int) : (self.write data report_id nativeRet).2.1 = self := by
  unfold HIDDevice.write
  repeat' split
  all_goals rfl

theorem read_state_eq (self : HIDDevice) (size : Nat) (timeout : Option Int)
    (nativeRet : Int) (nativeBuf : List Nat) :
    (self.read size timeout nativeRet nativeBuf).2.1 = self := by
  unfold HIDDevice.read
  repeat' split
  all_goals rfl

theorem send_feature_report_state_eq (self : HIDDevice) (data : List Nat)
    (report_id : Nat) (nativeRet : Int) :
    (self.send_feature_report data report_id nativeRet).2.1 = self := by
  unfold HIDDevice.send_feature_report
  repeat' split
  all_goals rfl

/-- C10: when a native call reports a failure count (negative, which is
the raising case for `write` and `read`, and subsumes `-1` for
`send_feature_report`), the failed call leaves the handle's state
unchanged: the post-call object equals the pre-call object, so
`is_open` and every descriptor identity field are preserved. -/
theorem C10_error_preserves_state (self : HIDDevice) (data : List Nat)
    (report_id size : Nat) (timeout : Option Int) (nativeRet : Int)
    (nativeBuf : List Nat) (hret : nativeRet < 0) :
    (self.write data report_id nativeRet).2.1 = self ∧
    (self.read size timeout nativeRet nativeBuf).2.1 = self ∧
    (self.send_feature_report data report_id nativeRet).2.1 = self ∧
    ((self.write data report_id nativeRet).2.1).is_open = self.is_open ∧
    ((self.read size timeout nativeRet nativeBuf).2.1).path = self.path ∧
    ((self.send_feature_report data report_id nativeRet).2.1).vendor_id =
      self.vendor_id := by
  refine ⟨write_state_eq self data report_id nativeRet,
    read_state_eq self size timeout nativeRet nativeBuf,
    send_feature_report_state_eq self data report_id nativeRet, ?_, ?_, ?_⟩
  · rw [write_state_eq]
  · rw [read_state_eq]
  · rw [send_feature_report_state_eq]

/-- C10 witness: concrete failing calls (native count `-1`) on the open
handle leave the object unchanged. -/
theorem C10_error_preserves_state_witness :
    (devOpen.write [1] 0 (-1)).2.1 = devOpen ∧
    (devOpen.read 8 (some 100) (-1) (List.replicate 8 0)).2.1 = devOpen ∧
    (devOpen.send_feature_report [1] 0 (-1)).2.1 = devOpen ∧
    ((devOpen.write [1] 0 (-1)).2.1).is_open = devOpen.is_open ∧
    ((devOpen.read 8 (some 100) (-1) (List.replicate 8 0)).2.1).path =
      devOpen.path ∧
    ((devOpen.send_feature_report [1] 0 (-1)).2.1).vendor_id =
      devOpen.vendor_id :=
  C10_error_preserves_state devOpen [1] 0 8 (some 100) (-1)
    (List.replicate 8 0) (by decide)

/-- C1 counterexample: the claim says `read` returns exactly the bytes
the native count reports and no more.  But with `size=8` and a native
timed read that fills three bytes and returns 3, the code returns the
whole 8-byte buffer (`bytearray(cdata)`), not the 3 bytes read. -/
theorem C1_read_counterexample :
    (devOpen.read 8 (some 100) 3 [1, 2, 3, 0, 0, 0, 0, 0]).1 =
      .ok [1, 2, 3, 0, 0, 0, 0, 0] ∧
    (devOpen.read 8 (some 100) 3 [1, 2, 3, 0, 0, 0, 0, 0]).1 ≠ .ok [1, 2, 3] := by
  have h1 : (devOpen.read 8 (some 100) 3 [1, 2, 3, 0, 0, 0, 0, 0]).1 =
      .ok [1, 2, 3, 0, 0, 0, 0, 0] := rfl
  refine ⟨h1, ?_⟩
  rw [h1]
  simp

/-- C1 amended: on an open handle, `read(size, timeout)` raises
`ReadError` on a negative native count, returns the empty sequence on a
zero count, and on a positive count returns the ENTIRE `size`-byte
buffer as filled by the native call — the result length is `size`, not
the native count. -/
theorem C1_read_amended (self : HIDDevice) (size : Nat) (timeout : Option Int)
    (nativeRet : Int) (nativeBuf : List Nat) (hopen : self.is_open = true)
    (hlen : nativeBuf.length = size) :
    (nativeRet < 0 →
      (self.read size timeout nativeRet nativeBuf).1 =
        .error (.ReadError nativeRet)) ∧
    (nativeRet = 0 → (self.read size timeout nativeRet nativeBuf).1 = .ok []) ∧
    (0 < nativeRet →
      (self.read size timeout nativeRet nativeBuf).1 = .ok nativeBuf ∧
      ∀ l, (self.read size timeout nativeRet nativeBuf).1 = .ok l →
        l.length = size) := by
  by_cases hneg : nativeRet < 0
  · refine ⟨fun _ => ?_, fun h0 => absurd hneg (by omega),
      fun hpos => absurd hneg (by omega)⟩
    simp [HIDDevice.read, hopen, hneg]
  · by_cases h0 : nativeRet = 0
    · refine ⟨fun h => absurd h hneg, fun _ => ?_,
        fun hpos => absurd h0 (by omega)⟩
      simp [HIDDevice.read, hopen, hneg, h0]
    · have hok : (self.read size timeout nativeRet nativeBuf).1 = .ok nativeBuf := by
        simp [HIDDevice.read, hopen, hneg, h0]
      refine ⟨fun h => absurd h hneg, fun h => absurd h h0, fun _ => ⟨hok, ?_⟩⟩
      intro l hl
      rw [hok] at hl
      cases hl
      exact hlen

/-- C1 amended witness: on the concrete open handle with `size=8` and
`timeout=100`, a zero native count gives `[]`, a `-1` count raises
`ReadError`, and the positive count 3 returns the whole 8-byte
buffer. -/
theorem C1_read_amended_witness :
    (devOpen.read 8 (some 100) 0 (List.replicate 8 0)).1 = .ok [] ∧
    (devOpen.read 8 (some 100) (-1) (List.replicate 8 0)).1 =
      .error (.ReadError (-1)) ∧
    (devOpen.read 8 (some 100) 3 [1, 2, 3, 0, 0, 0, 0, 0]).1 =
      .ok [1, 2, 3, 0, 0, 0, 0, 0] := by
  refine ⟨?_, ?_, ?_⟩
  · exact (C1_read_amended devOpen 8 (some 100) 0 (List.replicate 8 0) rfl
      (by decide)).2.1 rfl
  · exact (C1_read_amended devOpen 8 (some 100) (-1) (List.replicate 8 0) rfl
      (by decide)).1 (by decide)
  · exact ((C1_read_amended devOpen 8 (some 100) 3 [1, 2, 3, 0, 0, 0, 0, 0] rfl
      (by decide)).2.2 (by decide)).1

/-- C2, evaluated at the failing input: on a handle in the Closed
state, `write`, `read`, `send_feature_report` and `set_nonblocking` all
raise `NotOpenError` with no native call issued, but `get_feature_report`
— whose Python source is missing the `self._is_open` check every
sibling I/O method performs — issues the native
`hid_get_feature_report` call on the closed handle and returns a
success value instead of raising `NotOpenError`. -/
theorem C2_closed_io_bug :
    (devClosed.write [1] 0 1).1 = .error .NotOpenError ∧
    (devClosed.write [1] 0 1).2.2 = [] ∧
    (devClosed.read 8 none 1 (List.replicate 8 0)).1 = .error .NotOpenError ∧
    (devClosed.read 8 none 1 (List.replicate 8 0)).2.2 = [] ∧
    (devClosed.send_feature_report [1] 0 1).1 = .error .NotOpenError ∧
    (devClosed.send_feature_report [1] 0 1).2.2 = [] ∧
    (devClosed.set_nonblocking true).1 = .error .NotOpenError ∧
    (devClosed.set_nonblocking true).2.2 = [] ∧
    (devClosed.get_feature_report 64 0 1 (List.replicate 65 0)).1 ≠
      .error .NotOpenError ∧
    (devClosed.get_feature_report 64 0 1 (List.replicate 65 0)).2.2 =
      [NativeCall.hid_get_feature_report (0 :: List.replicate 64 0) 65] := by
  have hget : (devClosed.get_feature_report 64 0 1 (List.replicate 65 0)).1 =
      .ok (((List.replicate 65 0).drop 1).take 64) := rfl
  refine ⟨rfl, rfl, rfl, rfl, rfl, rfl, rfl, rfl, ?_, rfl⟩
  rw [hget]
  simp

/-- C4 counterexample: the claim says the feature-report operations
fail on ANY negative native count.  But the code tests `== -1` only:
with a native count of `-2`, `send_feature_report` returns `-2` as a
success value instead of raising `FeatureReportError`. -/
theorem C4_feature_counterexample :
    (devOpen.send_feature_report [1, 2] 0 (-2)).1 = .ok (-2) ∧
    (devOpen.send_feature_report [1, 2] 0 (-2)).1 ≠
      .error .FeatureReportError := by
  have h1 : (devOpen.send_feature_report [1, 2] 0 (-2)).1 = .ok (-2) := rfl
  refine ⟨h1, ?_⟩
  rw [h1]
  simp

/-- C4 amended: on an open handle, `send_feature_report` and
`get_feature_report` raise `FeatureReportError` exactly when the native
count is `-1`; every other native count, including other negative
counts such as `-2`, is treated as success, with `send_feature_report`
returning the native count and `get_feature_report` returning the
report bytes. -/
theorem C4_feature_amended (self : HIDDevice) (data : List Nat)
    (report_id size : Nat) (nativeRet : Int) (nativeBuf : List Nat)
    (hopen : self.is_open = true) (hrid : report_id < 256)
    (hdata : data.all (fun b => b < 256) = true) :
    ((self.send_feature_report data report_id nativeRet).1 =
        .error .FeatureReportError ↔ nativeRet = -1) ∧
    (nativeRet ≠ -1 →
      (self.send_feature_report data report_id nativeRet).1 = .ok nativeRet) ∧
    ((self.get_feature_report size report_id nativeRet nativeBuf).1 =
        .error .FeatureReportError ↔ nativeRet = -1) ∧
    (nativeRet ≠ -1 →
      (self.get_feature_report size report_id nativeRet nativeBuf).1 =
        .ok ((nativeBuf.drop 1).take size)) := by
  have hd2 : ¬ ∃ x ∈ data, 256 ≤ x := by
    push_neg
    intro x hx
    simpa using List.all_eq_true.mp hdata x hx
  by_cases hr : nativeRet = -1
  · refine ⟨?_, fun hne => absurd hr hne, ?_, fun hne => absurd hr hne⟩ <;>
      simp [HIDDevice.send_feature_report, HIDDevice.get_feature_report,
        hopen, Nat.not_le.mpr hrid, hd2, hr]
  · refine ⟨?_, fun _ => ?_, ?_, fun _ => ?_⟩ <;>
      simp [HIDDevice.send_feature_report, HIDDevice.get_feature_report,
        hopen, Nat.not_le.mpr hrid, hd2, hr]

/-- C4 amended witness: on the concrete open handle a native count of
`-2` is not an error for either feature-report operation. -/
theorem C4_feature_amended_witness :
    ((devOpen.send_feature_report [1] 0 (-2)).1 =
        .error .FeatureReportError ↔ (-2 : Int) = -1) ∧
    (devOpen.send_feature_report [1] 0 (-2)).1 = .ok (-2) ∧
    (devOpen.get_feature_report 2 0 (-2) [0, 8, 8]).1 = .ok [8, 8] := by
  have h := C4_feature_amended devOpen [1] 0 2 (-2) [0, 8, 8] rfl (by decide)
    (by decide)
  exact ⟨h.1, h.2.1 (by decide), h.2.2.2 (by decide)⟩

end EasyHid
